import Mathlib

/-!
Shallow embedding of `src/utils/architectural-decision-detector.ts` from
the In-Memoria repository: a heuristic classifier deciding whether a code
change qualifies as an architectural decision.

Modelling conventions:
* JavaScript numbers are modelled as exact rationals (`ℚ`); all weights in
  the source are small decimal literals and every threshold comparison the
  claims exercise agrees between IEEE doubles and exact rationals for this
  weight set.
* `dependentsCount` is modelled as `Nat` (the spec constrains it to
  non-negative integers).
* The string literal union `"file" | "module" | "project"` becomes the
  inductive `Scope`; the recommendation union becomes `Recommendation`.
* `Partial<ChangeAnalysis>` becomes a structure of `Option` fields;
  JavaScript truthiness of `dependentsCount` (where `0` is falsy) is kept
  in `isLikelyArchitectural`.
* `String.prototype.includes` / `endsWith` are modelled through list
  infix / suffix on the character data.
-/

/-- Blast-radius classification of a change: the TS union
`"file" | "module" | "project"`. -/
inductive Scope where
  | file
  | module
  | project
  deriving DecidableEq, Repr

/-- Input fact record (TS interface `ChangeAnalysis`). -/
structure ChangeAnalysis where
  affectedFiles : List String
  affectedConcepts : List String
  scope : Scope
  patternChanges : List String
  dependentsCount : Nat
  breakingChanges : Bool
  configurationChanges : Bool
  deriving DecidableEq, Repr

/-- The TS union `"record" | "skip" | "use_project_decision"`. -/
inductive Recommendation where
  | record
  | skip
  | use_project_decision
  deriving DecidableEq, Repr

/-- Output record (TS interface `ArchitecturalDecisionCriteria`). -/
structure ArchitecturalDecisionCriteria where
  isArchitectural : Bool
  confidence : ℚ
  reasons : List String
  recommendation : Recommendation
  deriving DecidableEq, Repr

/-- The reason/confidence accumulation loop of `assessArchitecturalDecision`
(source lines 34–84): the seven criteria evaluated in order, each pushing
one reason string and adding its weight when triggered. -/
def scoreCriteria (analysis : ChangeAnalysis) : List String × ℚ :=
  let acc : List String × ℚ := ([], 0)
  let acc := if 3 ≤ analysis.affectedFiles.length then
      (acc.1 ++ ["Affects " ++ toString analysis.affectedFiles.length ++ " files"],
       acc.2 + 0.3)
    else acc
  let acc := if 10 ≤ analysis.affectedConcepts.length then
      (acc.1 ++ ["Affects " ++ toString analysis.affectedConcepts.length ++ " semantic concepts"],
       acc.2 + 0.25)
    else acc
  let acc := if analysis.scope = Scope.project then
      (acc.1 ++ ["Project-wide scope detected"], acc.2 + 0.3)
    else if analysis.scope = Scope.module then
      (acc.1 ++ ["Module-wide scope detected"], acc.2 + 0.15)
    else acc
  let acc := if 5 ≤ analysis.dependentsCount then
      (acc.1 ++ ["Affects " ++ toString analysis.dependentsCount ++ " dependent files"],
       acc.2 + 0.2)
    else acc
  let acc := if 0 < analysis.patternChanges.length then
      (acc.1 ++ ["Introduces " ++ toString analysis.patternChanges.length ++ " pattern changes"],
       acc.2 + 0.25)
    else acc
  let acc := if analysis.breakingChanges then
      (acc.1 ++ ["Contains breaking changes"], acc.2 + 0.2)
    else acc
  let acc := if analysis.configurationChanges then
      (acc.1 ++ ["Modifies project configuration"], acc.2 + 0.15)
    else acc
  acc

/-- The raw (pre-clamp) confidence sum: the value of the `confidence`
variable after the seven criteria and before `Math.min(1.0, confidence)`. -/
def rawConfidence (analysis : ChangeAnalysis) : ℚ :=
  (scoreCriteria analysis).2

/-- `assessArchitecturalDecision` (source lines 31–105): scores the change,
compares the unclamped sum against the 0.4 / 0.2 thresholds, and returns
the clamped confidence. -/
def assessArchitecturalDecision (analysis : ChangeAnalysis) :
    ArchitecturalDecisionCriteria :=
  let reasons := (scoreCriteria analysis).1
  let confidence := (scoreCriteria analysis).2
  let isArchitectural : Bool := decide ((0.4 : ℚ) ≤ confidence)
  let recommendation : Recommendation :=
    if isArchitectural then Recommendation.record
    else if (0.2 : ℚ) ≤ confidence then Recommendation.use_project_decision
    else Recommendation.skip
  { isArchitectural := isArchitectural
    confidence := min 1 confidence
    reasons := reasons
    recommendation := recommendation }

/-- JavaScript `filePath.includes(indicator)`: substring containment,
modelled as list infix on the character data. -/
def jsIncludes (s pat : String) : Bool :=
  decide (pat.data <:+: s.data)

/-- JavaScript `filePath.endsWith(indicator)`: suffix test, modelled as
list suffix on the character data. -/
def jsEndsWith (s pat : String) : Bool :=
  decide (pat.data <:+ s.data)

/-- The fixed catalog of architecturally significant path indicators
(source lines 111–140), in source order. -/
def architecturalIndicators : List String :=
  [ "package.json",
    "tsconfig.json",
    "Cargo.toml",
    "go.mod",
    "pom.xml",
    "build.gradle",
    "pyproject.toml",
    "main.ts",
    "main.js",
    "index.ts",
    "index.js",
    "app.py",
    "main.rs",
    "main.go",
    "architecture.md",
    "adr/",
    "docs/architecture",
    "src/core/",
    "src/infrastructure/",
    "src/framework/",
    "lib/core/" ]

/-- `isArchitecturallySignificantFile` (source lines 110–145): true iff some
indicator is contained in the path or the path ends with it. Matching is on
raw characters: case-sensitive, no separator normalization. -/
def isArchitecturallySignificantFile (filePath : String) : Bool :=
  architecturalIndicators.any
    (fun indicator => jsIncludes filePath indicator || jsEndsWith filePath indicator)

/-- Return record of `extractDecisionContext`; the TS
`Record<string, string>` of alternatives is modelled as an association
list, always empty in the current code. -/
structure DecisionContext where
  decisionContext : String
  suggestedRationale : String
  suggestedAlternatives : List (String × String)
  deriving DecidableEq, Repr

/-- `extractDecisionContext` (source lines 150–181): a fixed if/else-if
priority chain where exactly one branch supplies the context and rationale
strings. `Array.prototype.join(", ")` becomes `String.intercalate ", "`. -/
def extractDecisionContext (analysis : ChangeAnalysis) : DecisionContext :=
  if 0 < analysis.patternChanges.length then
    { decisionContext :=
        "Adopted " ++ String.intercalate ", " analysis.patternChanges ++ " pattern(s)"
      suggestedRationale :=
        "Pattern detected across " ++ toString analysis.affectedFiles.length ++ " files"
      suggestedAlternatives := [] }
  else if analysis.scope = Scope.project then
    { decisionContext :=
        "Project-wide change affecting " ++ toString analysis.affectedFiles.length ++ " files"
      suggestedRationale :=
        "Change impacts multiple modules and " ++
          toString analysis.affectedConcepts.length ++ " concepts"
      suggestedAlternatives := [] }
  else if analysis.breakingChanges then
    { decisionContext := "Breaking change introduced"
      suggestedRationale :=
        "Change affects " ++ toString analysis.dependentsCount ++ " dependent files"
      suggestedAlternatives := [] }
  else
    { decisionContext :=
        "Structural change affecting " ++ toString analysis.affectedFiles.length ++ " files"
      suggestedRationale :=
        "Change impacts " ++ toString analysis.affectedConcepts.length ++ " semantic concepts"
      suggestedAlternatives := [] }

/-- TS `Partial<ChangeAnalysis>`: every field may be absent. -/
structure PartialChangeAnalysis where
  affectedFiles : Option (List String) := none
  affectedConcepts : Option (List String) := none
  scope : Option Scope := none
  patternChanges : Option (List String) := none
  dependentsCount : Option Nat := none
  breakingChanges : Option Bool := none
  configurationChanges : Option Bool := none
  deriving DecidableEq, Repr

/-- `isLikelyArchitectural` (source lines 188–199): short-circuit OR of the
simplified criteria over a partial record. An absent field makes its clause
false. The source guards `dependentsCount` by truthiness (`n && n >= 5`),
so a present `0` is falsy before the comparison; that guard is kept as the
`n ≠ 0` conjunct. `breakingChanges` is truthy iff present and `true`. -/
def isLikelyArchitectural (analysis : PartialChangeAnalysis) : Bool :=
  (match analysis.affectedFiles with
    | some fs => decide (3 ≤ fs.length)
    | none => false) ||
  (match analysis.affectedConcepts with
    | some cs => decide (10 ≤ cs.length)
    | none => false) ||
  (analysis.scope == some Scope.project) ||
  (match analysis.dependentsCount with
    | some n => decide (n ≠ 0) && decide (5 ≤ n)
    | none => false) ||
  (match analysis.patternChanges with
    | some ps => decide (0 < ps.length)
    | none => false) ||
  (analysis.breakingChanges == some true)

/-- Forget nothing: view a complete `ChangeAnalysis` as a partial one with
every field present, for relating the fast path to the full scorer. -/
def toPartial (analysis : ChangeAnalysis) : PartialChangeAnalysis :=
  { affectedFiles := some analysis.affectedFiles
    affectedConcepts := some analysis.affectedConcepts
    scope := some analysis.scope
    patternChanges := some analysis.patternChanges
    dependentsCount := some analysis.dependentsCount
    breakingChanges := some analysis.breakingChanges
    configurationChanges := some analysis.configurationChanges }

/-! Per-criterion weight contributions, used to decompose the running sum. -/

/-- Weight contributed by criterion 1 (file impact, `3+` files). -/
def fileWeight (a : ChangeAnalysis) : ℚ :=
  if 3 ≤ a.affectedFiles.length then 0.3 else 0

/-- Weight contributed by criterion 2 (concept impact, `10+` concepts). -/
def conceptWeight (a : ChangeAnalysis) : ℚ :=
  if 10 ≤ a.affectedConcepts.length then 0.25 else 0

/-- Weight contributed by criterion 3 (scope: project 0.3, module 0.15). -/
def scopeWeight (a : ChangeAnalysis) : ℚ :=
  if a.scope = Scope.project then 0.3
  else if a.scope = Scope.module then 0.15
  else 0

/-- Weight contributed by criterion 4 (dependency impact, `5+` dependents). -/
def dependentsWeight (a : ChangeAnalysis) : ℚ :=
  if 5 ≤ a.dependentsCount then 0.2 else 0

/-- Weight contributed by criterion 5 (pattern changes present). -/
def patternWeight (a : ChangeAnalysis) : ℚ :=
  if 0 < a.patternChanges.length then 0.25 else 0

/-- Weight contributed by criterion 6 (breaking changes). -/
def breakingWeight (a : ChangeAnalysis) : ℚ :=
  if a.breakingChanges then 0.2 else 0

/-- Weight contributed by criterion 7 (configuration changes). -/
def configWeight (a : ChangeAnalysis) : ℚ :=
  if a.configurationChanges then 0.15 else 0

/-- Declarative rendering of the §4.1 criteria table at a given input: one
row per criterion in evaluation order, holding the trigger flag, the exact
reason string (embedding the input's counts), and the weight. The mutually
exclusive scope sub-criteria 3a/3b occupy a single row. -/
def criterionTable (a : ChangeAnalysis) : List (Bool × String × ℚ) :=
  [ (decide (3 ≤ a.affectedFiles.length),
     "Affects " ++ toString a.affectedFiles.length ++ " files", 0.3),
    (decide (10 ≤ a.affectedConcepts.length),
     "Affects " ++ toString a.affectedConcepts.length ++ " semantic concepts", 0.25),
    (a.scope == Scope.project || a.scope == Scope.module,
     if a.scope = Scope.project then "Project-wide scope detected"
       else "Module-wide scope detected",
     if a.scope = Scope.project then 0.3 else 0.15),
    (decide (5 ≤ a.dependentsCount),
     "Affects " ++ toString a.dependentsCount ++ " dependent files", 0.2),
    (decide (0 < a.patternChanges.length),
     "Introduces " ++ toString a.patternChanges.length ++ " pattern changes", 0.25),
    (a.breakingChanges, "Contains breaking changes", 0.2),
    (a.configurationChanges, "Modifies project configuration", 0.15) ]

/-- Rows of the criteria table whose trigger fired. -/
def triggeredRows (a : ChangeAnalysis) : List (Bool × String × ℚ) :=
  (criterionTable a).filter (fun r => r.1)

/-- Number of triggered criteria (scope sub-criteria count as at most one). -/
def triggeredCount (a : ChangeAnalysis) : Nat :=
  (triggeredRows a).length

/-- Order on scopes by blast radius: file < module < project. -/
def scopeRank : Scope → Nat
  | Scope.file => 0
  | Scope.module => 1
  | Scope.project => 2

/-- Order on recommendations: skip < use_project_decision < record. -/
def recommendationRank : Recommendation → Nat
  | Recommendation.skip => 0
  | Recommendation.use_project_decision => 1
  | Recommendation.record => 2

/-- Pointwise "no field decreases" order on change analyses: every count is
allowed to grow, the scope may only widen, and boolean flags may only flip
from false to true. -/
def changeLE (a b : ChangeAnalysis) : Prop :=
  a.affectedFiles.length ≤ b.affectedFiles.length ∧
  a.affectedConcepts.length ≤ b.affectedConcepts.length ∧
  scopeRank a.scope ≤ scopeRank b.scope ∧
  a.dependentsCount ≤ b.dependentsCount ∧
  a.patternChanges.length ≤ b.patternChanges.length ∧
  (a.breakingChanges = true → b.breakingChanges = true) ∧
  (a.configurationChanges = true → b.configurationChanges = true)

instance (a b : ChangeAnalysis) : Decidable (changeLE a b) := by
  unfold changeLE; infer_instance

/-- The pure substring check the suffix clause of
`isArchitecturallySignificantFile` is subsumed by: true iff some indicator
occurs anywhere in the path. -/
def substringOnlySignificantFile (filePath : String) : Bool :=
  architecturalIndicators.any (fun indicator => jsIncludes filePath indicator)

/-! Concrete inputs used to witness the hypothesis-bearing theorems. -/

/-- Ten affected concepts (0.25) plus module scope (0.15): raw sum 0.4. -/
def exConcepts10Module : ChangeAnalysis :=
  { affectedFiles := []
    affectedConcepts := ["c1", "c2", "c3", "c4", "c5", "c6", "c7", "c8", "c9", "c10"]
    scope := Scope.module
    patternChanges := []
    dependentsCount := 0
    breakingChanges := false
    configurationChanges := false }

/-- Five dependents (0.2) and nothing else: raw sum exactly 0.2. -/
def exDependents5 : ChangeAnalysis :=
  { affectedFiles := []
    affectedConcepts := []
    scope := Scope.file
    patternChanges := []
    dependentsCount := 5
    breakingChanges := false
    configurationChanges := false }

/-- Nothing triggered: raw sum 0. -/
def exEmpty : ChangeAnalysis :=
  { affectedFiles := []
    affectedConcepts := []
    scope := Scope.file
    patternChanges := []
    dependentsCount := 0
    breakingChanges := false
    configurationChanges := false }

/-- Three files (0.3) and project scope (0.3): raw sum 0.6. -/
def exFilesProject : ChangeAnalysis :=
  { affectedFiles := ["a.ts", "b.ts", "c.ts"]
    affectedConcepts := []
    scope := Scope.project
    patternChanges := []
    dependentsCount := 0
    breakingChanges := false
    configurationChanges := false }

/-- Pattern changes and breaking changes together, to exercise the
narrative branch priority. -/
def exPatternBreaking : ChangeAnalysis :=
  { affectedFiles := ["a.ts", "b.ts"]
    affectedConcepts := ["auth"]
    scope := Scope.module
    patternChanges := ["Observer", "Factory"]
    dependentsCount := 7
    breakingChanges := true
    configurationChanges := false }

/-- Module scope plus configuration changes: the fast path says false while
the scorer still accumulates 0.3. -/
def exModuleConfig : ChangeAnalysis :=
  { affectedFiles := ["a.ts"]
    affectedConcepts := []
    scope := Scope.module
    patternChanges := []
    dependentsCount := 0
    breakingChanges := false
    configurationChanges := true }

/-! Helper lemmas shared by the claim theorems. -/

lemma dep_truthy (n : Nat) : ((¬n = 0) ∧ 5 ≤ n) ↔ 5 ≤ n := by omega

lemma scope_module_ne_project : Scope.module ≠ Scope.project := by decide

lemma scope_file_ne_project : Scope.file ≠ Scope.project := by decide

lemma scope_file_ne_module : Scope.file ≠ Scope.module := by decide

lemma scope_beq_pp : (Scope.project == Scope.project) = true := rfl

lemma scope_beq_pm : (Scope.project == Scope.module) = false := rfl

lemma scope_beq_mp : (Scope.module == Scope.project) = false := rfl

lemma scope_beq_mm : (Scope.module == Scope.module) = true := rfl

lemma scope_beq_fp : (Scope.file == Scope.project) = false := rfl

lemma scope_beq_fm : (Scope.file == Scope.module) = false := rfl

-- The accumulation loop agrees with the declarative criteria table: the
-- reasons are the reason strings of the triggered rows in order, and the
-- raw sum is the sum of the triggered weights.
set_option maxHeartbeats 2000000 in
lemma scoreCriteria_eq_table (a : ChangeAnalysis) :
    scoreCriteria a = ((triggeredRows a).map (fun r => r.2.1),
                       ((triggeredRows a).map (fun r => r.2.2)).sum) := by
  rcases a with ⟨files, concepts, scope, pats, deps, brk, cfg⟩
  simp only [scoreCriteria, triggeredRows, criterionTable]
  rcases scope <;>
    by_cases h1 : 3 ≤ files.length <;>
    by_cases h2 : 10 ≤ concepts.length <;>
    by_cases h4 : 5 ≤ deps <;>
    by_cases h5 : 0 < pats.length <;>
    cases brk <;> cases cfg <;>
    simp [h1, h2, h4, h5, List.filter, scope_beq_pp, scope_beq_pm, scope_beq_mp,
      scope_beq_mm, scope_beq_fp, scope_beq_fm] <;> norm_num

-- The raw sum decomposes as the sum of the seven per-criterion weights.
set_option maxHeartbeats 2000000 in
lemma raw_eq_weights (a : ChangeAnalysis) :
    rawConfidence a = fileWeight a + conceptWeight a + scopeWeight a +
      dependentsWeight a + patternWeight a + breakingWeight a + configWeight a := by
  rcases a with ⟨files, concepts, scope, pats, deps, brk, cfg⟩
  simp only [rawConfidence, scoreCriteria, fileWeight, conceptWeight, scopeWeight,
    dependentsWeight, patternWeight, breakingWeight, configWeight]
  rcases scope <;>
    by_cases h1 : 3 ≤ files.length <;>
    by_cases h2 : 10 ≤ concepts.length <;>
    by_cases h4 : 5 ≤ deps <;>
    by_cases h5 : 0 < pats.length <;>
    cases brk <;> cases cfg <;>
    simp [h1, h2, h4, h5] <;> ring

lemma fileWeight_nonneg (a : ChangeAnalysis) : 0 ≤ fileWeight a := by
  unfold fileWeight; split_ifs <;> norm_num

lemma conceptWeight_nonneg (a : ChangeAnalysis) : 0 ≤ conceptWeight a := by
  unfold conceptWeight; split_ifs <;> norm_num

lemma scopeWeight_nonneg (a : ChangeAnalysis) : 0 ≤ scopeWeight a := by
  unfold scopeWeight; split_ifs <;> norm_num

lemma dependentsWeight_nonneg (a : ChangeAnalysis) : 0 ≤ dependentsWeight a := by
  unfold dependentsWeight; split_ifs <;> norm_num

lemma patternWeight_nonneg (a : ChangeAnalysis) : 0 ≤ patternWeight a := by
  unfold patternWeight; split_ifs <;> norm_num

lemma breakingWeight_nonneg (a : ChangeAnalysis) : 0 ≤ breakingWeight a := by
  unfold breakingWeight; split_ifs <;> norm_num

lemma configWeight_nonneg (a : ChangeAnalysis) : 0 ≤ configWeight a := by
  unfold configWeight; split_ifs <;> norm_num

lemma rawConfidence_nonneg (a : ChangeAnalysis) : 0 ≤ rawConfidence a := by
  rw [raw_eq_weights]
  have h1 := fileWeight_nonneg a
  have h2 := conceptWeight_nonneg a
  have h3 := scopeWeight_nonneg a
  have h4 := dependentsWeight_nonneg a
  have h5 := patternWeight_nonneg a
  have h6 := breakingWeight_nonneg a
  have h7 := configWeight_nonneg a
  linarith

lemma fileWeight_mono (a b : ChangeAnalysis)
    (h : a.affectedFiles.length ≤ b.affectedFiles.length) :
    fileWeight a ≤ fileWeight b := by
  unfold fileWeight; split_ifs <;> first | (exfalso; omega) | norm_num

lemma conceptWeight_mono (a b : ChangeAnalysis)
    (h : a.affectedConcepts.length ≤ b.affectedConcepts.length) :
    conceptWeight a ≤ conceptWeight b := by
  unfold conceptWeight; split_ifs <;> first | (exfalso; omega) | norm_num

lemma scopeWeight_mono (a b : ChangeAnalysis)
    (h : scopeRank a.scope ≤ scopeRank b.scope) :
    scopeWeight a ≤ scopeWeight b := by
  unfold scopeWeight
  rcases ha : a.scope <;> rcases hb : b.scope <;> simp_all [scopeRank] <;> norm_num

lemma dependentsWeight_mono (a b : ChangeAnalysis)
    (h : a.dependentsCount ≤ b.dependentsCount) :
    dependentsWeight a ≤ dependentsWeight b := by
  unfold dependentsWeight; split_ifs <;> first | (exfalso; omega) | norm_num

lemma patternWeight_mono (a b : ChangeAnalysis)
    (h : a.patternChanges.length ≤ b.patternChanges.length) :
    patternWeight a ≤ patternWeight b := by
  unfold patternWeight; split_ifs <;> first | (exfalso; omega) | norm_num

lemma breakingWeight_mono (a b : ChangeAnalysis)
    (h : a.breakingChanges = true → b.breakingChanges = true) :
    breakingWeight a ≤ breakingWeight b := by
  unfold breakingWeight
  cases ha : a.breakingChanges <;> cases hb : b.breakingChanges <;>
    simp_all <;> norm_num

lemma configWeight_mono (a b : ChangeAnalysis)
    (h : a.configurationChanges = true → b.configurationChanges = true) :
    configWeight a ≤ configWeight b := by
  unfold configWeight
  cases ha : a.configurationChanges <;> cases hb : b.configurationChanges <;>
    simp_all <;> norm_num

lemma rawConfidence_mono (a b : ChangeAnalysis) (h : changeLE a b) :
    rawConfidence a ≤ rawConfidence b := by
  obtain ⟨h1, h2, h3, h4, h5, h6, h7⟩ := h
  rw [raw_eq_weights, raw_eq_weights]
  have g1 := fileWeight_mono a b h1
  have g2 := conceptWeight_mono a b h2
  have g3 := scopeWeight_mono a b h3
  have g4 := dependentsWeight_mono a b h4
  have g5 := patternWeight_mono a b h5
  have g6 := breakingWeight_mono a b h6
  have g7 := configWeight_mono a b h7
  linarith

lemma exConcepts10Module_raw : rawConfidence exConcepts10Module = 0.4 := by
  norm_num [rawConfidence, scoreCriteria, exConcepts10Module, scope_module_ne_project]

lemma exDependents5_raw : rawConfidence exDependents5 = 0.2 := by
  norm_num [rawConfidence, scoreCriteria, exDependents5, scope_file_ne_project,
    scope_file_ne_module]

lemma exEmpty_raw : rawConfidence exEmpty < 0.2 := by
  norm_num [rawConfidence, scoreCriteria, exEmpty, scope_file_ne_project,
    scope_file_ne_module]

/-! The claim theorems. -/

/-- Claim C1: for every `ChangeAnalysis`, the output of
`assessArchitecturalDecision` satisfies: `isArchitectural` holds iff the
pre-clamp raw confidence sum is at least 0.4; the recommendation is
`record` iff `isArchitectural`; it is `use_project_decision` iff the change
is not architectural and the raw sum is at least 0.2; otherwise (raw sum
below 0.2) it is `skip`. -/
theorem assess_threshold_invariant (a : ChangeAnalysis) :
    ((assessArchitecturalDecision a).isArchitectural = true ↔ (0.4 : ℚ) ≤ rawConfidence a)
  ∧ ((assessArchitecturalDecision a).recommendation = Recommendation.record ↔
      (assessArchitecturalDecision a).isArchitectural = true)
  ∧ ((assessArchitecturalDecision a).recommendation = Recommendation.use_project_decision ↔
      (assessArchitecturalDecision a).isArchitectural = false ∧ (0.2 : ℚ) ≤ rawConfidence a)
  ∧ ((assessArchitecturalDecision a).recommendation = Recommendation.skip ↔
      rawConfidence a < 0.2) := by
  simp only [assessArchitecturalDecision, rawConfidence]
  by_cases h4 : (0.4 : ℚ) ≤ (scoreCriteria a).2 <;>
    by_cases h2 : (0.2 : ℚ) ≤ (scoreCriteria a).2 <;>
    simp [h4, h2, not_le] <;> linarith

/-- Claim C2: `assessArchitecturalDecision` evaluates the seven criteria of
the §4.1 table in their fixed order: the reasons list is exactly the reason
strings of the triggered rows (each embedding the actual count or flag from
the input), and the raw confidence sum is the sum of the triggered weights
— file impact 0.30, concept impact 0.25, project scope 0.30 / module scope
0.15, dependents 0.20, pattern changes 0.25, breaking changes 0.20,
configuration changes 0.15, as recorded in `criterionTable`. -/
theorem assess_criteria_table (a : ChangeAnalysis) :
    (assessArchitecturalDecision a).reasons = (triggeredRows a).map (fun r => r.2.1)
  ∧ rawConfidence a = ((triggeredRows a).map (fun r => r.2.2)).sum := by
  have h := scoreCriteria_eq_table a
  constructor
  · show (scoreCriteria a).1 = _
    rw [h]
  · show (scoreCriteria a).2 = _
    rw [h]

/-- Claim C3: threshold exactness for every input whose raw sum lands on a
boundary: a raw sum of exactly 0.4 yields `isArchitectural` and `record`; a
raw sum of exactly 0.2 yields `use_project_decision`; a raw sum below 0.2
yields `skip`. The quantification over all analyses covers every
combination of criteria whose weights reach the boundary values. -/
theorem assess_threshold_exact (a : ChangeAnalysis) :
    (rawConfidence a = 0.4 →
      (assessArchitecturalDecision a).isArchitectural = true ∧
      (assessArchitecturalDecision a).recommendation = Recommendation.record)
  ∧ (rawConfidence a = 0.2 →
      (assessArchitecturalDecision a).isArchitectural = false ∧
      (assessArchitecturalDecision a).recommendation = Recommendation.use_project_decision)
  ∧ (rawConfidence a < 0.2 →
      (assessArchitecturalDecision a).recommendation = Recommendation.skip) := by
  simp only [assessArchitecturalDecision, rawConfidence]
  refine ⟨fun h => ?_, fun h => ?_, fun h => ?_⟩
  · rw [h]; norm_num
  · rw [h]; norm_num
  · have g1 : ¬ ((0.4 : ℚ) ≤ (scoreCriteria a).2) := by linarith
    have g2 : ¬ ((0.2 : ℚ) ≤ (scoreCriteria a).2) := by linarith
    simp [g1, g2]

/-- Witness for C3: the 0.25 + 0.15 combination reaches exactly 0.4 and is
recorded; a lone dependents criterion reaches exactly 0.2; the empty
analysis is skipped. -/
theorem assess_threshold_exact_wit :
    ((assessArchitecturalDecision exConcepts10Module).isArchitectural = true ∧
     (assessArchitecturalDecision exConcepts10Module).recommendation = Recommendation.record)
  ∧ ((assessArchitecturalDecision exDependents5).isArchitectural = false ∧
     (assessArchitecturalDecision exDependents5).recommendation =
       Recommendation.use_project_decision)
  ∧ (assessArchitecturalDecision exEmpty).recommendation = Recommendation.skip :=
  ⟨(assess_threshold_exact exConcepts10Module).1 exConcepts10Module_raw,
   (assess_threshold_exact exDependents5).2.1 exDependents5_raw,
   (assess_threshold_exact exEmpty).2.2 exEmpty_raw⟩

/-- Claim C4: the reported confidence is `min 1 rawSum` and lies in
`[0, 1]`, and the reasons list has exactly one entry per triggered
criterion — between 0 and 7, the scope sub-criteria counting as at most
one (they share a single row of `criterionTable`). -/
theorem assess_confidence_clamped (a : ChangeAnalysis) :
    (assessArchitecturalDecision a).confidence = min 1 (rawConfidence a)
  ∧ 0 ≤ (assessArchitecturalDecision a).confidence
  ∧ (assessArchitecturalDecision a).confidence ≤ 1
  ∧ (assessArchitecturalDecision a).reasons.length = triggeredCount a
  ∧ triggeredCount a ≤ 7 := by
  refine ⟨rfl, ?_, ?_, ?_, ?_⟩
  · show (0 : ℚ) ≤ min 1 (scoreCriteria a).2
    exact le_min (by norm_num) (rawConfidence_nonneg a)
  · show min 1 (scoreCriteria a).2 ≤ 1
    exact min_le_left 1 _
  · show (scoreCriteria a).1.length = triggeredCount a
    rw [scoreCriteria_eq_table]
    simp [triggeredCount]
  · exact List.length_filter_le _ _

/-- Claim C5: monotonicity. If no field of `a` exceeds the corresponding
field of `b` (counts may only grow, the scope may only widen, flags may
only turn on — which covers in particular pushing one triggering field
across its threshold while nothing else decreases), then the confidence
never decreases and the recommendation is never demoted along
skip < use_project_decision < record. -/
theorem assess_monotone (a b : ChangeAnalysis) (h : changeLE a b) :
    (assessArchitecturalDecision a).confidence ≤ (assessArchitecturalDecision b).confidence
  ∧ recommendationRank (assessArchitecturalDecision a).recommendation ≤
      recommendationRank (assessArchitecturalDecision b).recommendation := by
  have hraw : rawConfidence a ≤ rawConfidence b := rawConfidence_mono a b h
  constructor
  · show min 1 (scoreCriteria a).2 ≤ min 1 (scoreCriteria b).2
    exact min_le_min (le_refl 1) hraw
  · show recommendationRank _ ≤ recommendationRank _
    simp only [assessArchitecturalDecision]
    by_cases ha4 : (0.4 : ℚ) ≤ (scoreCriteria a).2 <;>
      by_cases hb4 : (0.4 : ℚ) ≤ (scoreCriteria b).2 <;>
      by_cases ha2 : (0.2 : ℚ) ≤ (scoreCriteria a).2 <;>
      by_cases hb2 : (0.2 : ℚ) ≤ (scoreCriteria b).2 <;>
      simp [ha4, hb4, ha2, hb2, recommendationRank] <;>
      first
        | rfl
        | (exfalso; simp only [rawConfidence] at hraw; linarith)

/-- Witness for C5: the empty analysis is below the three-files/project
analysis, and both confidence and recommendation rank respect the order. -/
theorem assess_monotone_wit :
    changeLE exEmpty exFilesProject
  ∧ (assessArchitecturalDecision exEmpty).confidence ≤
      (assessArchitecturalDecision exFilesProject).confidence
  ∧ recommendationRank (assessArchitecturalDecision exEmpty).recommendation ≤
      recommendationRank (assessArchitecturalDecision exFilesProject).recommendation :=
  ⟨by decide, assess_monotone exEmpty exFilesProject (by decide)⟩

/-- Claim C6: over partial analyses, `isLikelyArchitectural` returns true
iff at least one simplified criterion holds — present `affectedFiles` with
3+ entries, present `affectedConcepts` with 10+ entries, project scope,
present `dependentsCount` of 5+, present non-empty `patternChanges`, or a
truthy `breakingChanges`. Absent fields never satisfy their clause, and
the function is total by construction. -/
theorem isLikelyArchitectural_iff (p : PartialChangeAnalysis) :
    isLikelyArchitectural p = true ↔
      ((∃ fs, p.affectedFiles = some fs ∧ 3 ≤ fs.length) ∨
       (∃ cs, p.affectedConcepts = some cs ∧ 10 ≤ cs.length) ∨
       p.scope = some Scope.project ∨
       (∃ n, p.dependentsCount = some n ∧ 5 ≤ n) ∨
       (∃ ps, p.patternChanges = some ps ∧ 0 < ps.length) ∨
       p.breakingChanges = some true) := by
  rcases p with ⟨f, c, s, pat, d, b, g⟩
  simp only [isLikelyArchitectural]
  rcases f with _ | f <;> rcases c with _ | c <;> rcases pat with _ | pat <;>
    rcases d with _ | d <;> simp [Option.some.injEq, beq_iff_eq, dep_truthy, or_assoc]

/-- Claim C7: `extractDecisionContext` is a fixed priority chain in which
exactly one branch fires: non-empty `patternChanges` selects the
pattern-adoption text regardless of every other field; otherwise project
scope selects the project-wide text; otherwise `breakingChanges` selects
the breaking-change text; otherwise the default structural-change text. -/
theorem extractDecisionContext_priority (a : ChangeAnalysis) :
    (0 < a.patternChanges.length →
      extractDecisionContext a =
        { decisionContext :=
            "Adopted " ++ String.intercalate ", " a.patternChanges ++ " pattern(s)"
          suggestedRationale :=
            "Pattern detected across " ++ toString a.affectedFiles.length ++ " files"
          suggestedAlternatives := [] })
  ∧ (a.patternChanges.length = 0 → a.scope = Scope.project →
      extractDecisionContext a =
        { decisionContext :=
            "Project-wide change affecting " ++ toString a.affectedFiles.length ++ " files"
          suggestedRationale :=
            "Change impacts multiple modules and " ++
              toString a.affectedConcepts.length ++ " concepts"
          suggestedAlternatives := [] })
  ∧ (a.patternChanges.length = 0 → a.scope ≠ Scope.project → a.breakingChanges = true →
      extractDecisionContext a =
        { decisionContext := "Breaking change introduced"
          suggestedRationale :=
            "Change affects " ++ toString a.dependentsCount ++ " dependent files"
          suggestedAlternatives := [] })
  ∧ (a.patternChanges.length = 0 → a.scope ≠ Scope.project → a.breakingChanges = false →
      extractDecisionContext a =
        { decisionContext :=
            "Structural change affecting " ++ toString a.affectedFiles.length ++ " files"
          suggestedRationale :=
            "Change impacts " ++ toString a.affectedConcepts.length ++ " semantic concepts"
          suggestedAlternatives := [] }) := by
  refine ⟨fun h1 => ?_, fun h1 h2 => ?_, fun h1 h2 h3 => ?_, fun h1 h2 h3 => ?_⟩
  · simp [extractDecisionContext, h1]
  · simp [extractDecisionContext, h1, h2]
  · simp [extractDecisionContext, h1, h2, h3]
  · simp [extractDecisionContext, h1, h2, h3]

/-- Witness for C7: an input with both pattern changes and breaking
changes takes the pattern branch, never the breaking-change branch. -/
theorem extractDecisionContext_priority_wit :
    0 < exPatternBreaking.patternChanges.length
  ∧ exPatternBreaking.breakingChanges = true
  ∧ extractDecisionContext exPatternBreaking =
      { decisionContext :=
          "Adopted " ++ String.intercalate ", " exPatternBreaking.patternChanges ++ " pattern(s)"
        suggestedRationale :=
          "Pattern detected across " ++ toString exPatternBreaking.affectedFiles.length ++ " files"
        suggestedAlternatives := [] } :=
  ⟨by decide, by decide, (extractDecisionContext_priority exPatternBreaking).1 (by decide)⟩

/-- Claim C8: `isArchitecturallySignificantFile` returns true iff the path
contains some indicator of the fixed catalog as a substring or ends with
one as a suffix; matching is on raw characters (case-sensitive, no
separator normalization). In particular a recognized manifest filename
matches under arbitrary directory nesting, while an unrelated path does
not. -/
theorem significantFile_matches :
    (∀ p, isArchitecturallySignificantFile p = true ↔
      ∃ indicator ∈ architecturalIndicators,
        indicator.data <:+: p.data ∨ indicator.data <:+ p.data)
  ∧ isArchitecturallySignificantFile "deeply/nested/dir/package.json" = true
  ∧ isArchitecturallySignificantFile "random/source.xyz" = false := by
  refine ⟨fun p => ?_, by decide, by decide⟩
  simp [isArchitecturallySignificantFile, List.any_eq_true, jsIncludes, jsEndsWith]

/-- Claim C9: soundness of the fast path relative to the full scorer. When
`isLikelyArchitectural` rejects a complete analysis, only the module-scope
and configuration criteria can still fire, so the raw sum is at most 0.30,
the verdict is not architectural, and the recommendation is never
`record`. -/
theorem fastPathNegative_sound (a : ChangeAnalysis)
    (h : isLikelyArchitectural (toPartial a) = false) :
    rawConfidence a = scopeWeight a + configWeight a
  ∧ rawConfidence a ≤ 0.3
  ∧ (assessArchitecturalDecision a).isArchitectural = false
  ∧ (assessArchitecturalDecision a).recommendation ≠ Recommendation.record := by
  simp [isLikelyArchitectural, toPartial, beq_iff_eq, dep_truthy] at h
  obtain ⟨⟨⟨⟨⟨h1, h2⟩, h3⟩, h4⟩, h5⟩, h6⟩ := h
  have h1n : ¬ 3 ≤ a.affectedFiles.length := by omega
  have h2n : ¬ 10 ≤ a.affectedConcepts.length := by omega
  have h4n : ¬ 5 ≤ a.dependentsCount := by
    by_cases hd : a.dependentsCount = 0
    · omega
    · have := h4 hd; omega
  have w1 : fileWeight a = 0 := by unfold fileWeight; exact if_neg h1n
  have w2 : conceptWeight a = 0 := by unfold conceptWeight; exact if_neg h2n
  have w4 : dependentsWeight a = 0 := by unfold dependentsWeight; exact if_neg h4n
  have w5 : patternWeight a = 0 := by unfold patternWeight; simp [h5]
  have w6 : breakingWeight a = 0 := by unfold breakingWeight; simp [h6]
  have w3 : scopeWeight a ≤ 0.15 := by
    unfold scopeWeight
    rw [if_neg h3]
    split_ifs <;> norm_num
  have w7 : configWeight a ≤ 0.15 := by
    unfold configWeight; split_ifs <;> norm_num
  have hraw : rawConfidence a = scopeWeight a + configWeight a := by
    rw [raw_eq_weights, w1, w2, w4, w5, w6]; ring
  have hle : rawConfidence a ≤ 0.3 := by rw [hraw]; linarith
  have harch : (assessArchitecturalDecision a).isArchitectural = false := by
    show decide ((0.4 : ℚ) ≤ (scoreCriteria a).2) = false
    have : ¬ ((0.4 : ℚ) ≤ (scoreCriteria a).2) := by
      show ¬ ((0.4 : ℚ) ≤ rawConfidence a)
      linarith
    simpa using this
  refine ⟨hraw, hle, harch, ?_⟩
  show (if decide ((0.4 : ℚ) ≤ (scoreCriteria a).2) = true then Recommendation.record
        else if (0.2 : ℚ) ≤ (scoreCriteria a).2 then Recommendation.use_project_decision
        else Recommendation.skip) ≠ Recommendation.record
  have hd : decide ((0.4 : ℚ) ≤ (scoreCriteria a).2) = false := harch
  rw [hd]
  split_ifs <;> simp_all

/-- Witness for C9: module scope with configuration changes is rejected by
the fast path, scores 0.3, and is not recommended for recording. -/
theorem fastPathNegative_sound_wit :
    isLikelyArchitectural (toPartial exModuleConfig) = false
  ∧ rawConfidence exModuleConfig ≤ 0.3
  ∧ (assessArchitecturalDecision exModuleConfig).isArchitectural = false
  ∧ (assessArchitecturalDecision exModuleConfig).recommendation ≠ Recommendation.record :=
  ⟨by decide, ((fastPathNegative_sound exModuleConfig (by decide)).2.1),
   ((fastPathNegative_sound exModuleConfig (by decide)).2.2.1),
   ((fastPathNegative_sound exModuleConfig (by decide)).2.2.2)⟩

/-- Claim C10: the suffix clause is subsumed by the substring clause, so
`isArchitecturallySignificantFile` is extensionally a pure substring check;
in particular `src/reindex.ts` matches because it merely contains the
indicator `index.ts`. -/
theorem significantFile_eq_substringOnly :
    (∀ p, isArchitecturallySignificantFile p = substringOnlySignificantFile p)
  ∧ isArchitecturallySignificantFile "src/reindex.ts" = true := by
  constructor
  · intro p
    rw [Bool.eq_iff_iff]
    simp only [isArchitecturallySignificantFile, substringOnlySignificantFile,
      List.any_eq_true, Bool.or_eq_true, jsIncludes, jsEndsWith, decide_eq_true_eq]
    constructor
    · rintro ⟨i, hi, hinf | hsuf⟩
      · exact ⟨i, hi, hinf⟩
      · exact ⟨i, hi, hsuf.isInfix⟩
    · rintro ⟨i, hi, hinf⟩
      exact ⟨i, hi, Or.inl hinf⟩
  · decide
